import Mathlib

/-!
# The hello-world gateway plugin

A shallow embedding of `plugins/hello_world/main.go` and of the two scenarios of
`plugins/hello_world/main_test.go`.

The plugin is one method, `Config.Access`, which resolves a message and hands it to the
host through the handle `kong` with `kong.Response.SetHeader("x-plugin", message)`.
The handle belongs to the host's development kit; the part of it the plugin can
observe (the exchange and the sequence of calls made through the handle) is modelled
below and kept apart from the plugin's own code.
-/

namespace HelloWorld

/-! ## The exchange handle -/

/-- Header store of one message, as it is read: every name is mapped to the values held
under it, and a name that is absent is mapped to the empty list (as a
`map[string][]string` does). -/
abbrev Header := String → List String

/-- The form under which a header name is looked up: its ASCII letters in lower case.
HTTP header names do not distinguish case, so `X-Plugin` and `x-plugin` name one header. -/
def canonicalName (name : String) : String :=
  String.mk (name.data.map Char.toLower)

/-- The incoming request as the test harness describes it: `Method`, `Url`, `Headers`. -/
structure PdkRequest where
  Method : String
  Url : String
  Headers : Header

/-- The outgoing response: its header store. -/
structure PdkResponse where
  Headers : Header

/-- The calls a plugin can make through the handle that touch headers. The first reads
the incoming request, the others write the outgoing response. -/
inductive PdkCall where
  | RequestGetHeader (k : String)
  | ResponseSetHeader (k : String) (v : String)
  | ResponseAddHeader (k : String) (v : String)
  | ResponseClearHeader (k : String)
  deriving DecidableEq, Repr

/-- Whether a call reads a header of the incoming request. -/
def PdkCall.isRequestHeaderRead : PdkCall → Bool
  | .RequestGetHeader _ => true
  | _ => false

/-- Whether a call writes a header of the outgoing response. -/
def PdkCall.isResponseHeaderWrite : PdkCall → Bool
  | .RequestGetHeader _ => false
  | .ResponseSetHeader _ _ => true
  | .ResponseAddHeader _ _ => true
  | .ResponseClearHeader _ => true

/-- The exchange handle `*pdk.PDK`: the request and the response of the current
exchange, and `Calls`, the calls made through the handle so far, oldest first. -/
structure PDK where
  Request : PdkRequest
  Response : PdkResponse
  Calls : List PdkCall

/-- Modelled from the spec: `kong.Response.SetHeader(k, v)` of the host's development
kit, whose code is not part of the repository. It "sets (overwrites, does not append)
the response header named" `k` to `v`: afterwards `k` holds the single value `v`, every
other header holds what it held, the request is not touched, and the call is recorded.
A name is the header `k` when it has the canonical form of `k`, whatever its case. -/
def PDK.ResponseSetHeader (kong : PDK) (k : String) (v : String) : PDK :=
  { Request := kong.Request
    Response :=
      { Headers := fun name =>
          if canonicalName name = canonicalName k then [v] else kong.Response.Headers name }
    Calls := kong.Calls ++ [PdkCall.ResponseSetHeader k v] }

/-! ## The plugin (`main.go`) -/

/-- The declared version: `var Version = "0.2"`. -/
def Version : String := "0.2"

/-- The declared priority: `var Priority = 5000`. -/
def Priority : Int := 5000

/-- The plugin configuration: `type Config struct { Message string }`. -/
structure Config where
  Message : String
  deriving DecidableEq, Repr

/-- The constructor `New`: `return &Config{}`, a configuration whose only field has the
zero value of `string`. -/
def New : Config := { Message := "" }

/-- What a call of `Config.Access` leaves behind: `conf`, the receiver as the body
leaves it; `message`, the local variable; `kong`, the handle after the call. -/
structure AccessFrame where
  conf : Config
  message : String
  kong : PDK

/-- The method `func (conf Config) Access(kong *pdk.PDK)`:
`message := conf.Message; if message == "" { message = "hello" };
kong.Response.SetHeader("x-plugin", message)`. -/
def Config.Access (conf : Config) (kong : PDK) : AccessFrame :=
  let message := conf.Message
  let message := if message = "" then "hello" else message
  let kong := kong.ResponseSetHeader "x-plugin" message
  { conf := conf, message := message, kong := kong }

/-! ## The host around the plugin (`main_test.go`) -/

/-- The request both tests build: `GET http://example.com` with the single request
header `X-Hi: hello`. -/
def testRequest : PdkRequest :=
  { Method := "GET"
    Url := "http://example.com"
    Headers := fun name => if canonicalName name = canonicalName "X-Hi" then ["hello"] else [] }

/-- The handle a test starts from: the given request, a response without headers, and
no call made yet. -/
def testEnv (req : PdkRequest) : PDK :=
  { Request := req, Response := { Headers := fun _ => [] }, Calls := [] }

/-- The host's read of the response after the access phase:
`env.ClientRes.Headers.Get(name)`, the first value under `name`, or `""`. -/
def headerGet (kong : PDK) (name : String) : String :=
  (kong.Response.Headers name).headD ""

/-- Modelled from the spec: the host reuses "one instance ... across many requests".
Each exchange of the list is handed to `Access` together with the configuration the
previous call left behind; the result is the list of handles after their calls. -/
def serveAll : Config → List PDK → List PDK
  | _, [] => []
  | conf, kong :: rest =>
    let frame := conf.Access kong
    frame.kong :: serveAll frame.conf rest

/-! ## The exchanges used as concrete inputs -/

/-- An exchange whose response already holds two values under `x-plugin` and one under
`content-type`, on the request of the tests. -/
def staleEnv : PDK :=
  { Request := testRequest
    Response :=
      { Headers := fun name =>
          if canonicalName name = canonicalName "x-plugin" then ["old", "older"]
          else if canonicalName name = canonicalName "content-type" then ["text/plain"]
          else [] }
    Calls := [] }

/-- A request that differs from the one of the tests in method, URL and headers: it
carries `X-Hi: goodbye`. -/
def otherRequest : PdkRequest :=
  { Method := "POST"
    Url := "http://example.org/other"
    Headers := fun name =>
      if canonicalName name = canonicalName "X-Hi" then ["goodbye"] else [] }

/-! ## Shared lemmas -/

theorem Access_kong (conf : Config) (kong : PDK) :
    (conf.Access kong).kong =
      kong.ResponseSetHeader "x-plugin" (if conf.Message = "" then "hello" else conf.Message) :=
  rfl

theorem Access_conf (conf : Config) (kong : PDK) : (conf.Access kong).conf = conf := rfl

theorem Access_message (conf : Config) (kong : PDK) :
    (conf.Access kong).message = if conf.Message = "" then "hello" else conf.Message := rfl

theorem Access_headers_self (conf : Config) (kong : PDK) :
    (conf.Access kong).kong.Response.Headers "x-plugin" =
      [if conf.Message = "" then "hello" else conf.Message] := by
  simp [Access_kong, PDK.ResponseSetHeader]

theorem Access_headers_other (conf : Config) (kong : PDK) (name : String)
    (h : canonicalName name ≠ canonicalName "x-plugin") :
    (conf.Access kong).kong.Response.Headers name = kong.Response.Headers name := by
  simp [Access_kong, PDK.ResponseSetHeader, h]

theorem Access_calls (conf : Config) (kong : PDK) :
    (conf.Access kong).kong.Calls =
      kong.Calls ++
        [PdkCall.ResponseSetHeader "x-plugin" (if conf.Message = "" then "hello" else conf.Message)] :=
  rfl

theorem Access_request (conf : Config) (kong : PDK) :
    (conf.Access kong).kong.Request = kong.Request := rfl

theorem resolved_ne_empty (s : String) : (if s = "" then "hello" else s) ≠ "" := by
  by_cases h : s = ""
  · simp [h]
  · simp [h]

theorem serveAll_headers (conf : Config) (ks : List PDK) :
    (serveAll conf ks).map (fun k => k.Response.Headers "x-plugin") =
      List.replicate ks.length [if conf.Message = "" then "hello" else conf.Message] := by
  induction ks generalizing conf with
  | nil => rfl
  | cons k0 rest ih =>
    simp only [serveAll, List.map_cons, List.length_cons, List.replicate_succ]
    rw [Access_headers_self, Access_conf, ih]

theorem Access_headers_same (conf : Config) (kong : PDK) (name : String)
    (h : canonicalName name = canonicalName "x-plugin") :
    (conf.Access kong).kong.Response.Headers name =
      [if conf.Message = "" then "hello" else conf.Message] := by
  simp [Access_kong, PDK.ResponseSetHeader, h]

theorem push_ne_empty (s : String) (c : Char) : s.push c ≠ "" := by
  intro h
  have h2 := congrArg String.data h
  simp [String.push] at h2

theorem staleEnv_xplugin : staleEnv.Response.Headers "x-plugin" = ["old", "older"] := by
  simp [staleEnv]

theorem staleEnv_contentType : staleEnv.Response.Headers "content-type" = ["text/plain"] := by
  have h : canonicalName "content-type" ≠ canonicalName "x-plugin" := by decide
  simp [staleEnv, h]

/-! ## The claims -/

/-- C1: for every configuration whose `Message` is the empty string and every exchange,
whatever response headers it already holds, after `Config.Access` the response header
`x-plugin` holds the value `"hello"`, and the host reads `"hello"` under that name. -/
theorem C1_empty_message_gives_hello (conf : Config) (kong : PDK) (h : conf.Message = "") :
    (conf.Access kong).kong.Response.Headers "x-plugin" = ["hello"] ∧
      headerGet (conf.Access kong).kong "x-plugin" = "hello" := by
  have hs := Access_headers_self conf kong
  rw [if_pos h] at hs
  exact ⟨hs, by simp [headerGet, hs]⟩

theorem C1_empty_message_gives_hello_witness :
    (Config.mk "").Message = "" ∧
      ((Config.mk "").Access staleEnv).kong.Response.Headers "x-plugin" = ["hello"] ∧
      headerGet ((Config.mk "").Access staleEnv).kong "x-plugin" = "hello" :=
  ⟨rfl, C1_empty_message_gives_hello (Config.mk "") staleEnv rfl⟩

/-- C2: for every configuration whose `Message` is a non-empty string and every
exchange, after `Config.Access` the response header `x-plugin` holds exactly that
string, unchanged, and the host reads that string under the name. -/
theorem C2_nonempty_message_verbatim (conf : Config) (kong : PDK) (h : conf.Message ≠ "") :
    (conf.Access kong).kong.Response.Headers "x-plugin" = [conf.Message] ∧
      headerGet (conf.Access kong).kong "x-plugin" = conf.Message := by
  have hs := Access_headers_self conf kong
  rw [if_neg h] at hs
  exact ⟨hs, by simp [headerGet, hs]⟩

theorem C2_nonempty_message_verbatim_witness :
    ((Config.mk "  ").Message ≠ "" ∧
        ((Config.mk "  ").Access (testEnv testRequest)).kong.Response.Headers "x-plugin" = ["  "] ∧
        headerGet ((Config.mk "  ").Access (testEnv testRequest)).kong "x-plugin" = "  ") ∧
      ((Config.mk "test").Message ≠ "" ∧
        ((Config.mk "test").Access (testEnv testRequest)).kong.Response.Headers "x-plugin" =
          ["test"] ∧
        headerGet ((Config.mk "test").Access (testEnv testRequest)).kong "x-plugin" = "test") :=
  ⟨⟨by decide, C2_nonempty_message_verbatim (Config.mk "  ") (testEnv testRequest) (by decide)⟩,
    ⟨by decide, C2_nonempty_message_verbatim (Config.mk "test") (testEnv testRequest) (by decide)⟩⟩

/-- C3: for every configuration, whatever its `Message`, the value `Config.Access`
writes to the response header `x-plugin` is not the empty string: the call it makes
carries a non-empty value, and that value is what the header holds afterwards. -/
theorem C3_written_value_never_empty (conf : Config) (kong : PDK) :
    ∃ v : String, v ≠ "" ∧
      (conf.Access kong).kong.Calls = kong.Calls ++ [PdkCall.ResponseSetHeader "x-plugin" v] ∧
      (conf.Access kong).kong.Response.Headers "x-plugin" = [v] ∧
      headerGet (conf.Access kong).kong "x-plugin" ≠ "" := by
  refine ⟨if conf.Message = "" then "hello" else conf.Message, resolved_ne_empty _,
    Access_calls conf kong, Access_headers_self conf kong, ?_⟩
  simp only [headerGet, Access_headers_self, List.headD_cons]
  exact resolved_ne_empty _

/-- C4: `Config.Access` overwrites and does not append. For every configuration and
every exchange whose response already holds one or more values under `x-plugin`, the
call made is a set (not an add), afterwards `x-plugin` holds exactly one value, the
resolved message, and no earlier value other than that message is left under it. -/
theorem C4_overwrites_not_appends (conf : Config) (kong : PDK)
    (h : kong.Response.Headers "x-plugin" ≠ []) :
    (conf.Access kong).kong.Response.Headers "x-plugin" =
        [if conf.Message = "" then "hello" else conf.Message] ∧
      ((conf.Access kong).kong.Response.Headers "x-plugin").length = 1 ∧
      (∀ old ∈ kong.Response.Headers "x-plugin",
        old ≠ (if conf.Message = "" then "hello" else conf.Message) →
          old ∉ (conf.Access kong).kong.Response.Headers "x-plugin") ∧
      (conf.Access kong).kong.Calls.getLast? =
        some (PdkCall.ResponseSetHeader "x-plugin"
          (if conf.Message = "" then "hello" else conf.Message)) := by
  have _ := h
  refine ⟨Access_headers_self conf kong, by simp [Access_headers_self], ?_, ?_⟩
  · intro old _ hne
    simp [Access_headers_self, hne]
  · simp [Access_calls]

theorem C4_overwrites_not_appends_witness :
    staleEnv.Response.Headers "x-plugin" ≠ [] ∧
      staleEnv.Response.Headers "x-plugin" = ["old", "older"] ∧
      ((Config.mk "test").Access staleEnv).kong.Response.Headers "x-plugin" = ["test"] ∧
      "old" ∉ ((Config.mk "test").Access staleEnv).kong.Response.Headers "x-plugin" ∧
      "older" ∉ ((Config.mk "test").Access staleEnv).kong.Response.Headers "x-plugin" := by
  have hpre : staleEnv.Response.Headers "x-plugin" = ["old", "older"] := staleEnv_xplugin
  have hne : staleEnv.Response.Headers "x-plugin" ≠ [] := by simp [hpre]
  have hC := C4_overwrites_not_appends (Config.mk "test") staleEnv hne
  refine ⟨hne, hpre, ?_, ?_, ?_⟩
  · simpa using hC.1
  · exact hC.2.2.1 "old" (by simp [hpre]) (by decide)
  · exact hC.2.2.1 "older" (by simp [hpre]) (by decide)

/-- C5: for every configuration and every exchange, one call of `Config.Access` is
exactly one response-header write, to the name `x-plugin`: the handle afterwards is the
handle before with `x-plugin` set once to the resolved message, so `x-plugin` holds that
message, one call is added to those made through the handle, the number of
response-header writes grows by one, the request is as it was, and every response
header other than `x-plugin` (a name that differs from it by more than case) holds
afterwards what it held before. -/
theorem C5_one_write_and_frame (conf : Config) (kong : PDK) :
    (conf.Access kong).kong =
        kong.ResponseSetHeader "x-plugin" (if conf.Message = "" then "hello" else conf.Message) ∧
      (conf.Access kong).kong.Response.Headers "x-plugin" =
        [if conf.Message = "" then "hello" else conf.Message] ∧
      (conf.Access kong).kong.Calls =
        kong.Calls ++
          [PdkCall.ResponseSetHeader "x-plugin"
            (if conf.Message = "" then "hello" else conf.Message)] ∧
      (conf.Access kong).kong.Calls.countP PdkCall.isResponseHeaderWrite =
        kong.Calls.countP PdkCall.isResponseHeaderWrite + 1 ∧
      (conf.Access kong).kong.Request = kong.Request ∧
      ∀ name : String, canonicalName name ≠ canonicalName "x-plugin" →
        (conf.Access kong).kong.Response.Headers name = kong.Response.Headers name := by
  refine ⟨rfl, Access_headers_self conf kong, Access_calls conf kong, ?_, rfl,
    fun name h => Access_headers_other conf kong name h⟩
  rw [Access_calls, List.countP_append]
  simp [PdkCall.isResponseHeaderWrite]

theorem C5_one_write_and_frame_witness :
    canonicalName "content-type" ≠ canonicalName "x-plugin" ∧
      staleEnv.Response.Headers "content-type" = ["text/plain"] ∧
      ((Config.mk "test").Access staleEnv).kong.Response.Headers "content-type" =
        ["text/plain"] ∧
      ((Config.mk "test").Access staleEnv).kong.Response.Headers "x-plugin" = ["test"] ∧
      ((Config.mk "test").Access staleEnv).kong.Calls =
        [PdkCall.ResponseSetHeader "x-plugin" "test"] ∧
      ((Config.mk "test").Access staleEnv).kong.Calls.countP PdkCall.isResponseHeaderWrite = 1 := by
  have hC := C5_one_write_and_frame (Config.mk "test") staleEnv
  refine ⟨by decide, staleEnv_contentType, ?_, ?_, ?_, ?_⟩
  · rw [hC.2.2.2.2.2 "content-type" (by decide)]
    exact staleEnv_contentType
  · simpa using hC.2.1
  · simpa [staleEnv] using hC.2.2.1
  · rw [hC.2.2.2.1]
    simp [staleEnv]

/-- C6: absent configuration behaves as the empty message. The configuration `New`
returns has the empty string as its `Message`, and `Access` on it, with no field set,
leaves `"hello"` under `x-plugin` on every exchange. -/
theorem C6_new_config_gives_hello :
    New.Message = "" ∧
      ∀ kong : PDK,
        (New.Access kong).kong.Response.Headers "x-plugin" = ["hello"] ∧
          headerGet (New.Access kong).kong "x-plugin" = "hello" := by
  refine ⟨rfl, fun kong => ?_⟩
  have hs : (New.Access kong).kong.Response.Headers "x-plugin" = ["hello"] := by
    rw [Access_headers_self]
    simp [New]
  exact ⟨hs, by simp [headerGet, hs]⟩

/-- C7: `Config.Access` has no error outcome and no early exit: what it leaves behind
holds a configuration, a message and a handle and no error value, and on every
configuration and every exchange it reaches the header write, so the handle afterwards
is the handle before with `x-plugin` set to the resolved message and `x-plugin` holds
that message. This is so for the empty `Message`, which gives `"hello"`, and for every
non-empty `Message` (any string followed by any character), which is written as it is:
no input is rejected, and no input leaves the handle as it was. -/
theorem C7_access_always_reaches_write (conf : Config) (kong : PDK) :
    (conf.Access kong).kong =
        kong.ResponseSetHeader "x-plugin" (if conf.Message = "" then "hello" else conf.Message) ∧
      (conf.Access kong).kong.Response.Headers "x-plugin" =
        [if conf.Message = "" then "hello" else conf.Message] ∧
      (conf.Access kong).kong.Calls ≠ kong.Calls ∧
      ((New.Access kong).kong = kong.ResponseSetHeader "x-plugin" "hello" ∧
        (New.Access kong).kong.Response.Headers "x-plugin" = ["hello"]) ∧
      ∀ (s : String) (c : Char),
        ((Config.mk (s.push c)).Access kong).kong =
            kong.ResponseSetHeader "x-plugin" (s.push c) ∧
          ((Config.mk (s.push c)).Access kong).kong.Response.Headers "x-plugin" = [s.push c] := by
  refine ⟨rfl, Access_headers_self conf kong, ?_, ⟨?_, ?_⟩, fun s c => ⟨?_, ?_⟩⟩
  · rw [Access_calls]
    intro h
    have hl := congrArg List.length h
    simp at hl
  · rw [Access_kong]
    simp [New]
  · rw [Access_headers_self]
    simp [New]
  · rw [Access_kong, if_neg (push_ne_empty s c)]
  · rw [Access_headers_self, if_neg (push_ne_empty s c)]

/-- C8: `Config.Access` does not mutate the configuration. For every configuration the
receiver after the call is the receiver before it, and so is its `Message`; for the
empty `Message` the substitution is made in the local variable, which ends as `"hello"`
while the `Message` stays empty; and one configuration reused over any sequence of
exchanges leaves the same value under `x-plugin` on each of them. -/
theorem C8_config_not_mutated (conf : Config) (kong : PDK) :
    (conf.Access kong).conf = conf ∧
      (conf.Access kong).conf.Message = conf.Message ∧
      ((New.Access kong).message = "hello" ∧ (New.Access kong).conf.Message = "") ∧
      ∀ ks : List PDK,
        (serveAll conf ks).map (fun k => k.Response.Headers "x-plugin") =
          List.replicate ks.length [if conf.Message = "" then "hello" else conf.Message] := by
  refine ⟨rfl, rfl, ⟨?_, rfl⟩, fun ks => serveAll_headers conf ks⟩
  rw [Access_message]
  simp [New]

/-- C9: evaluation of the code against the claim. On every configuration and every
exchange `Config.Access` makes exactly one call through the handle, the write of
`x-plugin`, and no read of a request header: the number of request-header reads among
the calls does not change, and in the first scenario of the tests the calls made are
the single write of `"hello"`. -/
theorem C9_access_reads_no_request_header (conf : Config) (kong : PDK) :
    (conf.Access kong).kong.Calls.countP PdkCall.isRequestHeaderRead =
        kong.Calls.countP PdkCall.isRequestHeaderRead ∧
      (New.Access (testEnv testRequest)).kong.Calls =
        [PdkCall.ResponseSetHeader "x-plugin" "hello"] ∧
      (New.Access (testEnv testRequest)).kong.Calls.any PdkCall.isRequestHeaderRead = false := by
  refine ⟨?_, ?_, ?_⟩
  · rw [Access_calls, List.countP_append]
    simp [PdkCall.isRequestHeaderRead]
  · simp [Access_calls, New, testEnv]
  · simp [Access_calls, New, testEnv, PdkCall.isRequestHeaderRead]

/-- C10: the emitted value depends on `Message` alone. For every configuration and any
two exchanges, `Config.Access` makes the same call and leaves the same value under
`x-plugin` on both; with no message configured the host reads `"hello"` whatever the
request is, also when its `X-Hi` header is `goodbye`; and running `Access` a second time
on an exchange leaves its request and its response as the first run left them. -/
theorem C10_value_depends_on_message_only (conf : Config) (kong₁ kong₂ : PDK) :
    (conf.Access kong₁).kong.Response.Headers "x-plugin" =
        (conf.Access kong₂).kong.Response.Headers "x-plugin" ∧
      (conf.Access kong₁).kong.Calls.getLast? = (conf.Access kong₂).kong.Calls.getLast? ∧
      (∀ req : PdkRequest, headerGet (New.Access (testEnv req)).kong "x-plugin" = "hello") ∧
      headerGet (New.Access (testEnv otherRequest)).kong "x-plugin" =
        headerGet (New.Access (testEnv testRequest)).kong "x-plugin" ∧
      (conf.Access (conf.Access kong₁).kong).kong.Response = (conf.Access kong₁).kong.Response ∧
      (conf.Access (conf.Access kong₁).kong).kong.Request = (conf.Access kong₁).kong.Request := by
  refine ⟨?_, ?_, ?_, ?_, ?_, rfl⟩
  · rw [Access_headers_self, Access_headers_self]
  · simp [Access_calls]
  · intro req
    simp [headerGet, Access_headers_self, New]
  · simp [headerGet, Access_headers_self, New]
  · simp only [Access_kong, PDK.ResponseSetHeader]
    congr 1
    funext name
    by_cases hn : canonicalName name = canonicalName "x-plugin"
    · simp [hn]
    · simp [hn]

end HelloWorld
